import Mathlib

/-!
Verification of the job-orchestration core of a Google-Maps scraping
application (Flask front end `app.py`, job registry `job_service.py`,
scraper `main.py`, runner adapter `scraper_runner.py`).

The Python source is shallowly embedded: pure helpers become Lean
functions, the mutable `JobService` / cache objects become explicit
state values threaded through the operations, wall-clock timestamps
become rationals supplied as explicit `now` arguments, and Python
exceptions become `Except` results.  Machine-level arithmetic (the MD5
digest of `CacheManager.generate_cache_id`) is modelled on `Nat` with
explicit reduction modulo `2 ^ 32`.
-/

/-! ## MD5 (`hashlib.md5(...).hexdigest()` as used by `CacheManager.generate_cache_id`) -/

/-- 32-bit left rotation on a word `x < 2^32`. -/
def rotl32 (x n : ℕ) : ℕ :=
  ((x <<< n) ||| (x >>> (32 - n))) % 2 ^ 32

/-- The 64 MD5 round constants `K[i] = floor(abs(sin(i+1)) * 2^32)`. -/
def md5K : List ℕ :=
  [3614090360, 3905402710, 606105819, 3250441966, 4118548399, 1200080426,
   2821735955, 4249261313, 1770035416, 2336552879, 4294925233, 2304563134,
   1804603682, 4254626195, 2792965006, 1236535329, 4129170786, 3225465664,
   643717713, 3921069994, 3593408605, 38016083, 3634488961, 3889429448,
   568446438, 3275163606, 4107603335, 1163531501, 2850285829, 4243563512,
   1735328473, 2368359562, 4294588738, 2272392833, 1839030562, 4259657740,
   2763975236, 1272893353, 4139469664, 3200236656, 681279174, 3936430074,
   3572445317, 76029189, 3654602809, 3873151461, 530742520, 3299628645,
   4096336452, 1126891415, 2878612391, 4237533241, 1700485571, 2399980690,
   4293915773, 2240044497, 1873313359, 4264355552, 2734768916, 1309151649,
   4149444226, 3174756917, 718787259, 3951481745]

/-- The MD5 per-round left-rotation amounts. -/
def md5S : List ℕ :=
  [7, 12, 17, 22, 7, 12, 17, 22, 7, 12, 17, 22, 7, 12, 17, 22,
   5, 9, 14, 20, 5, 9, 14, 20, 5, 9, 14, 20, 5, 9, 14, 20,
   4, 11, 16, 23, 4, 11, 16, 23, 4, 11, 16, 23, 4, 11, 16, 23,
   6, 10, 15, 21, 6, 10, 15, 21, 6, 10, 15, 21, 6, 10, 15, 21]

/-- MD5 padding: append `0x80`, zero bytes up to 56 mod 64, then the
original bit length as a 64-bit little-endian quantity. -/
def md5Pad (msg : List ℕ) : List ℕ :=
  let len := msg.length
  let bitLen := (8 * len) % 2 ^ 64
  let zeros := (120 - (len + 1) % 64) % 64
  msg ++ [128] ++ List.replicate zeros 0 ++
    (List.range 8).map (fun i => (bitLen >>> (8 * i)) % 256)

/-- Split a byte list into 64-byte blocks. -/
def chunks64 (l : List ℕ) : List (List ℕ) :=
  if h : l.length = 0 then []
  else l.take 64 :: chunks64 (l.drop 64)
termination_by l.length
decreasing_by
  simp only [List.length_drop]
  omega

/-- Decode a 64-byte block as 16 little-endian 32-bit words. -/
def md5Words (block : List ℕ) : List ℕ :=
  (List.range 16).map fun i =>
    block.getD (4 * i) 0 + block.getD (4 * i + 1) 0 * 256 +
      block.getD (4 * i + 2) 0 * 65536 + block.getD (4 * i + 3) 0 * 16777216

/-- The MD5 nonlinear function for round `i`. -/
def md5F (i b c d : ℕ) : ℕ :=
  if i < 16 then (b &&& c) ||| ((b ^^^ (2 ^ 32 - 1)) &&& d)
  else if i < 32 then (d &&& b) ||| ((d ^^^ (2 ^ 32 - 1)) &&& c)
  else if i < 48 then b ^^^ c ^^^ d
  else c ^^^ (b ||| (d ^^^ (2 ^ 32 - 1)))

/-- The message-word index used in round `i`. -/
def md5G (i : ℕ) : ℕ :=
  if i < 16 then i
  else if i < 32 then (5 * i + 1) % 16
  else if i < 48 then (3 * i + 5) % 16
  else (7 * i) % 16

/-- One MD5 compression step. -/
def md5Step (ws : List ℕ) (st : ℕ × ℕ × ℕ × ℕ) (i : ℕ) : ℕ × ℕ × ℕ × ℕ :=
  match st with
  | (a, b, c, d) =>
    let f := (md5F i b c d + a + md5K.getD i 0 + ws.getD (md5G i) 0) % 2 ^ 32
    (d, (b + rotl32 f (md5S.getD i 0)) % 2 ^ 32, b, c)

/-- Process one 64-byte block against the running state. -/
def md5Block (st : ℕ × ℕ × ℕ × ℕ) (block : List ℕ) : ℕ × ℕ × ℕ × ℕ :=
  match st, (List.range 64).foldl (md5Step (md5Words block)) st with
  | (a0, b0, c0, d0), (a, b, c, d) =>
    ((a0 + a) % 2 ^ 32, (b0 + b) % 2 ^ 32, (c0 + c) % 2 ^ 32, (d0 + d) % 2 ^ 32)

/-- A hexadecimal digit character. -/
def hexDigit (n : ℕ) : Char :=
  if n < 10 then Char.ofNat (48 + n) else Char.ofNat (87 + n)

/-- A byte as two lowercase hex characters. -/
def byteHex (b : ℕ) : String :=
  String.mk [hexDigit (b / 16 % 16), hexDigit (b % 16)]

/-- A 32-bit word rendered little-endian as hex. -/
def word32Hex (w : ℕ) : String :=
  byteHex (w % 256) ++ byteHex (w / 256 % 256) ++
    byteHex (w / 65536 % 256) ++ byteHex (w / 16777216 % 256)

/-- MD5 digest of a byte sequence, rendered as the usual 32-character
lowercase hex string. -/
def md5HexBytes (msg : List ℕ) : String :=
  match (chunks64 (md5Pad msg)).foldl md5Block
      (1732584193, 4023233417, 2562383102, 271733878) with
  | (a, b, c, d) => word32Hex a ++ word32Hex b ++ word32Hex c ++ word32Hex d

/-- `hashlib.md5(s.encode()).hexdigest()` for a string `s`. -/
def md5Hex (s : String) : String :=
  md5HexBytes (s.toUTF8.toList.map (·.toNat))

/-! ## `CacheManager` (main.py): checkpoint fingerprint and store -/

/-- The `combined = f"{search_query}_{output_file}"` string of
`CacheManager.generate_cache_id`. -/
def combinedKey (search_query output_file : String) : String :=
  search_query ++ "_" ++ output_file

/-- `CacheManager.generate_cache_id`: MD5 hex digest of the combined
`query_output` string. -/
def generate_cache_id (search_query output_file : String) : String :=
  md5Hex (combinedKey search_query output_file)

/-! ## Generic string-keyed dictionaries (Python `dict` / `OrderedDict`
entries in insertion order, oldest first) -/

/-- First value stored under a key, if any. -/
def dictLookup {V : Type} : List (String × V) → String → Option V
  | [], _ => none
  | (k2, v) :: t, k => if k2 = k then some v else dictLookup t k

/-- Remove the entry stored under a key (first occurrence). -/
def dictErase {V : Type} (k : String) : List (String × V) → List (String × V)
  | [] => []
  | (k2, v) :: t => if k2 = k then t else (k2, v) :: dictErase k t

/-- Python `d[k] = v`: overwrite in place if the key exists, else append. -/
def dictSet {V : Type} (l : List (String × V)) (k : String) (v : V) :
    List (String × V) :=
  if (dictLookup l k).isSome then
    l.map fun kv => if kv.1 = k then (k, v) else kv
  else l ++ [(k, v)]

/-! ## `ScrapingCache` checkpoints (main.py) -/

/-- The `ScrapingCache` dataclass: one durable resume checkpoint. -/
structure ScrapingCache where
  search_query : String
  output_file : String
  total_target : ℤ
  scraped_count : ℤ
  last_scraped_index : ℤ
  timestamp : String
  cache_id : String
deriving DecidableEq

/-- `CacheManager.save_cache`: store a checkpoint record in the cache
directory under its fingerprint (`{cache_id}.json`, last writer wins). -/
def save_cache (store : List (String × ScrapingCache))
    (search_query output_file : String) (total_target scraped_count last_scraped_index : ℤ)
    (timestamp : String) : List (String × ScrapingCache) :=
  let cache_id := generate_cache_id search_query output_file
  dictSet store cache_id
    ⟨search_query, output_file, total_target, scraped_count, last_scraped_index,
      timestamp, cache_id⟩

/-- `CacheManager.load_cache`: look the checkpoint up by the fingerprint of
(query, output target); a found record is returned only when its referenced
output file still exists (`outputExists` stands for `os.path.exists`). -/
def load_cache (store : List (String × ScrapingCache))
    (search_query output_file : String) (outputExists : String → Bool) :
    Option ScrapingCache :=
  match dictLookup store (generate_cache_id search_query output_file) with
  | some c => if outputExists c.output_file then some c else none
  | none => none

/-- The resume decision taken at the top of `scrape_places`
(main.py lines 329-358): where to start, whether the run is in append
mode, and whether it resumes from a checkpoint. -/
structure ResumeDecision where
  start_index : ℤ
  is_append_mode : Bool
  resuming : Bool
deriving DecidableEq

/-- Checkpoint reconciliation from `scrape_places`: `is_append_mode` is
initialised to `os.path.exists(output_path) or ultra_fast_append`; when a
checkpoint is present and the independently measured `existing_count` is at
least its `scraped_count`, scraping resumes at `last_scraped_index + 1` with
append mode forced; otherwise the checkpoint is ignored and scraping starts
at index 0 with the initial append flag. -/
def reconcileCheckpoint (outputExists ultra_fast_append : Bool)
    (cache : Option ScrapingCache) (existing_count : ℤ) : ResumeDecision :=
  let apnd := outputExists || ultra_fast_append
  match cache with
  | some c =>
    if c.scraped_count ≤ existing_count then
      ⟨c.last_scraped_index + 1, true, true⟩
    else
      ⟨0, apnd, false⟩
  | none => ⟨0, apnd, false⟩

/-! ## `scraper_runner.py`: run result and the in-process runner -/

/-- A scraped record, as the Python dicts that flow through the record
callbacks (string keys to string values). -/
abbrev PyRecord := List (String × String)

/-- `ScraperRunResult`: terminal outcome returned by a runner, with the
exception rendered as its message string. -/
structure ScraperRunResult where
  success : Bool
  elapsed_seconds : ℚ
  error : Option String
deriving DecidableEq

/-- Parameters accepted by `main.scrape_places`
(`search_for, total, output_path, ultra_fast_append`). -/
def scrapePlacesParams : List String :=
  ["search_for", "total", "output_path", "ultra_fast_append"]

/-- Keyword arguments `InProcessScraperRunner.run` passes to
`scrape_places` (the first two arguments are positional). -/
def runnerKeywordArgs : List String :=
  ["output_path", "ultra_fast_append", "progress_callback",
   "metrics_callback", "record_callback"]

/-- Python call semantics: the first keyword argument the callee does not
accept, if any; such a call raises `TypeError` before the body runs. -/
def unexpectedKeyword (params kwargs : List String) : Option String :=
  kwargs.find? fun k => ¬ params.contains k

/-- The outcome of the `try` block of `InProcessScraperRunner.run`:
the call to `scrape_places` raises `TypeError` when it carries an
unexpected keyword argument, and only otherwise does the scraping body
(`body`, the rest of the try block) run. -/
def runBodyOutcome (body : Except String Unit) : Except String Unit :=
  match unexpectedKeyword scrapePlacesParams runnerKeywordArgs with
  | some k => Except.error ("TypeError: scrape_places() got an unexpected keyword argument " ++ k)
  | none => body

/-- The `try`/`except Exception` of `InProcessScraperRunner.run`: a normal
return yields a success result, a raised exception is caught and converted
into a failure result carrying the exception. -/
def catchToResult (elapsed : ℚ) (body : Except String Unit) : ScraperRunResult :=
  match body with
  | Except.ok _ => ⟨true, elapsed, none⟩
  | Except.error e => ⟨false, elapsed, some e⟩

/-- `InProcessScraperRunner.run` for a given scraping-body outcome. -/
def inProcessRun (elapsed : ℚ) (body : Except String Unit) : ScraperRunResult :=
  catchToResult elapsed (runBodyOutcome body)

/-! ## `job_service.py`: job state and the `JobService` registry -/

/-- The `ScrapingJobState` dataclass, with timestamps as rationals. -/
structure JobState where
  job_id : String
  search_query : String
  total_results : ℤ
  output_file : String
  append_mode : Bool
  fast_append : Bool
  status : String
  progress : ℚ
  result_count : ℤ
  error_message : Option String
  start_time : ℚ
  end_time : Option ℚ
  throughput_per_minute : ℚ
  eta_seconds : Option ℚ
  elapsed_seconds : ℚ
  last_update : Option ℚ
  progress_samples : List (ℚ × ℤ)
  recent_records : List PyRecord
deriving DecidableEq

/-- `deque(maxlen=n).append`: append on the right, dropping the oldest
element once the bound is exceeded. -/
def dequeAppend {α : Type} (maxlen : ℕ) (l : List α) (x : α) : List α :=
  let l2 := l ++ [x]
  if maxlen < l2.length then l2.tail else l2

/-- `JobService._prune_progress_samples_locked`: drop samples from the
front while they are older than `metrics_window_seconds` before the
newest sample. -/
def pruneSamples (window : ℚ) (samples : List (ℚ × ℤ)) : List (ℚ × ℤ) :=
  match samples.getLast? with
  | none => samples
  | some latest => samples.dropWhile fun s => decide (s.1 < latest.1 - window)

/-- The throughput/ETA computation of
`JobService._update_metrics_locked`, as a pure function of the sample
buffer, the job's target (`total_results`) and its current
`result_count`: returns `(throughput_per_minute, eta_seconds)`. -/
def computeMetrics (samples : List (ℚ × ℤ)) (total current : ℤ) :
    ℚ × Option ℚ :=
  if samples.length < 2 then (0, none)
  else
    match samples.head?, samples.getLast? with
    | some (first_ts, first_count), some (last_ts, last_count) =>
      let delta_count : ℤ := last_count - first_count
      let delta_time : ℚ := last_ts - first_ts
      if delta_time ≤ 0 ∨ delta_count ≤ 0 then (0, none)
      else
        let throughput_per_second : ℚ := (delta_count : ℚ) / delta_time
        (throughput_per_second * 60,
          if 0 < throughput_per_second then
            some (((max (total - current) 0 : ℤ) : ℚ) / throughput_per_second)
          else none)
    | _, _ => (0, none)

/-- `JobService._update_metrics_locked` applied to a job state. -/
def updateMetricsJob (job : JobState) : JobState :=
  let m := computeMetrics job.progress_samples job.total_results job.result_count
  { job with throughput_per_minute := m.1, eta_seconds := m.2 }

/-- Payload of a progress callback; absent keys are `none`
(Python truthiness of present strings is checked explicitly). -/
structure ProgressPayload where
  progress : Option ℚ
  current : Option ℤ
  error_message : Option String
  status : Option String
  timestamp : Option ℚ
deriving DecidableEq

/-- The state mutation of `JobService._handle_progress` (the event
emission carries no state). `window` is `metrics_window_seconds` and
`now` is the `time.time()` fallback for a missing timestamp. -/
def handleProgress (now window : ℚ) (job : JobState) (p : ProgressPayload) :
    JobState :=
  let job := { job with
    progress := p.progress.getD job.progress,
    result_count := p.current.getD job.result_count }
  let job :=
    match p.error_message with
    | some s => if s ≠ "" then { job with error_message := some s } else job
    | none => job
  let job :=
    match p.status with
    | some s =>
      if s ≠ "" then { job with status := s }
      else if job.status = "pending" then { job with status := "running" } else job
    | none =>
      if job.status = "pending" then { job with status := "running" } else job
  let ts := p.timestamp.getD now
  let job := { job with last_update := some ts }
  { job with progress_samples :=
      pruneSamples window (job.progress_samples ++ [(ts, job.result_count)]) }

/-- Payload of a metrics callback. -/
structure MetricsPayload where
  elapsed_seconds : Option ℚ
deriving DecidableEq

/-- The state mutation of `JobService._handle_metrics`. -/
def handleMetrics (now : ℚ) (job : JobState) (p : MetricsPayload) : JobState :=
  let job :=
    match p.elapsed_seconds with
    | some e => { job with elapsed_seconds := e }
    | none => { job with elapsed_seconds := now - job.start_time }
  updateMetricsJob job

/-- Payload of a record-batch callback. -/
structure RecordBatchPayload where
  records : List PyRecord
  total_scraped : Option ℤ
deriving DecidableEq

/-- The state mutation of `JobService._handle_record_batch`: an empty
batch is ignored; records feed the bounded preview deque (capacity 25)
and a `total_scraped` hint overwrites `result_count`. -/
def handleRecordBatch (job : JobState) (p : RecordBatchPayload) : JobState :=
  if p.records.isEmpty then job
  else
    let recs := p.records.foldl (dequeAppend 25) job.recent_records
    let job := { job with recent_records := recs }
    match p.total_scraped with
    | some n => { job with result_count := n }
    | none => job

/-- Terminal reconciliation of `JobService._run_job` once the runner has
returned: stamp `end_time` and the final elapsed time, settle the status
(`completed`/`failed` unless a callback already forced
`interrupted`/`failed`), surface the error, backfill `last_update`, and
recompute the metrics. -/
def finishJob (now : ℚ) (st : JobState) (r : ScraperRunResult) : JobState :=
  let st := { st with end_time := some now, elapsed_seconds := now - st.start_time }
  let st :=
    if st.status = "interrupted" ∨ st.status = "failed" then st
    else { st with status := if r.success then "completed" else "failed" }
  let st :=
    if ¬ r.success ∧ r.error.isSome then { st with error_message := r.error }
    else st
  let st :=
    if st.last_update = none then { st with last_update := some now } else st
  updateMetricsJob st

/-- `JobService._run_job` around the runner call: the runner's returned
result is reconciled by `finishJob`, while an exception raised by
`runner.run` itself propagates out of the worker unhandled (there is no
`try` around the call), leaving the job state untouched. -/
def runJobStep (now : ℚ) (st : JobState) (outcome : Except String ScraperRunResult) :
    Except String JobState :=
  match outcome with
  | Except.error e => Except.error e
  | Except.ok r => Except.ok (finishJob now st r)

/-- The shared mutable state of a `JobService`, with its configuration. -/
structure ServiceState where
  jobs : List (String × JobState)
  job_starts : List ℚ
  rate_limit : ℕ
  rate_limit_window : ℚ
  cleanup_after_seconds : ℚ
  metrics_window_seconds : ℚ
  max_concurrent_jobs : ℕ
deriving DecidableEq

/-- `JobService._cleanup_finished_jobs_locked`: purge jobs whose
`end_time` is older than the retention window. -/
def cleanupFinishedJobs (now cleanup_after : ℚ) (jobs : List (String × JobState)) :
    List (String × JobState) :=
  jobs.filter fun kv =>
    match kv.2.end_time with
    | some t => decide (now - cleanup_after ≤ t)
    | none => true

/-- The pruning loop of `JobService._enforce_rate_limit_locked`: pop
submission timestamps from the front while they fall outside the
trailing window. -/
def pruneJobStarts (now window : ℚ) : List ℚ → List ℚ
  | [] => []
  | t :: ts => if window < now - t then pruneJobStarts now window ts else t :: ts

/-- `JobService._current_running_jobs_locked`. -/
def runningCount (jobs : List (String × JobState)) : ℕ :=
  (jobs.filter fun kv => kv.2.status = "running").length

/-- `JobService.start_job` admission and registration (the dispatch of
the worker thread happens after the lock is released and is not part of
the state transition): cleanup, rate-limit enforcement, concurrency cap,
then registration of a fresh `running` job and its submission timestamp.
A `RateLimitExceeded` exception becomes an `Except.error` with the
exception's message. -/
def startJob (now : ℚ) (svc : ServiceState) (job_id search_query : String)
    (total_results : ℤ) (output_file : String) (append_mode fast_append : Bool) :
    Except String (ServiceState × JobState) :=
  let jobs := cleanupFinishedJobs now svc.cleanup_after_seconds svc.jobs
  let starts := pruneJobStarts now svc.rate_limit_window svc.job_starts
  if svc.rate_limit ≤ starts.length then
    Except.error "Too many scraping jobs started recently"
  else if svc.max_concurrent_jobs ≤ runningCount jobs then
    Except.error "Maximum concurrent scraping jobs in progress"
  else
    let st : JobState :=
      { job_id := job_id
        search_query := search_query
        total_results := total_results
        output_file := output_file
        append_mode := append_mode
        fast_append := fast_append
        status := "running"
        progress := 0
        result_count := 0
        error_message := none
        start_time := now
        end_time := none
        throughput_per_minute := 0
        eta_seconds := none
        elapsed_seconds := 0
        last_update := some now
        progress_samples := []
        recent_records := [] }
    Except.ok
      ({ svc with jobs := dictSet jobs job_id st, job_starts := starts ++ [now] }, st)

/-- Whether an `Except` computation raised. -/
def raised {ε α : Type} : Except ε α → Bool
  | Except.error _ => true
  | Except.ok _ => false

/-! ## `app.py`: the bounded LRU cache and the duplicate-check memo layer -/

/-- The `LRUCache` class over an `OrderedDict`: entries in recency
order, least-recently-accessed first. -/
structure LRUCache (V : Type) where
  cache : List (String × V)
  max_size : ℕ
deriving DecidableEq

/-- `LRUCache.get`: a hit moves the entry to the most-recently-used end
(`move_to_end`) and returns its value; a miss returns `None` and leaves
the cache unchanged. -/
def lruGet {V : Type} (c : LRUCache V) (k : String) : Option V × LRUCache V :=
  match dictLookup c.cache k with
  | some v => (some v, { c with cache := dictErase k c.cache ++ [(k, v)] })
  | none => (none, c)

/-- `LRUCache.put`: an existing key is moved to the most-recently-used
end and overwritten; a new key at capacity first evicts the
least-recently-used entry (`popitem(last=False)`), then is appended. -/
def lruPut {V : Type} (c : LRUCache V) (k : String) (v : V) : LRUCache V :=
  if (dictLookup c.cache k).isSome then
    { c with cache := dictErase k c.cache ++ [(k, v)] }
  else if c.max_size ≤ c.cache.length then
    { c with cache := c.cache.tail ++ [(k, v)] }
  else
    { c with cache := c.cache ++ [(k, v)] }

/-- One `get` or `put` call against an `LRUCache`. -/
inductive LruOp (V : Type) where
  | get (k : String)
  | put (k : String) (v : V)

/-- Apply one operation to the cache state. -/
def lruApply {V : Type} (c : LRUCache V) : LruOp V → LRUCache V
  | LruOp.get k => (lruGet c k).2
  | LruOp.put k v => lruPut c k v

/-- Run a sequence of cache operations. -/
def lruRun {V : Type} (c : LRUCache V) (ops : List (LruOp V)) : LRUCache V :=
  ops.foldl lruApply c

/-- A memoized duplicate verdict (`{'is_duplicate': ..., 'count': ...}`). -/
structure DupVerdict where
  is_duplicate : Bool
  count : ℤ
deriving DecidableEq

/-- The capacity of the consolidated duplicate cache
(`_duplicate_cache = LRUCache(max_size=200)`). -/
def duplicateCacheCapacity : ℕ := 200

/-- The consolidated duplicate cache in its initial (empty) state. -/
def duplicateCacheInit : LRUCache DupVerdict := ⟨[], duplicateCacheCapacity⟩

/-- Python `str.lower` on one character, for the ASCII range covered by
the business-type strings fed to the duplicate check. -/
def lowerChar (c : Char) : Char :=
  if 65 ≤ c.toNat ∧ c.toNat ≤ 90 then Char.ofNat (c.toNat + 32) else c

/-- Python `str.lower`, character by character. -/
def strLower (s : String) : String :=
  String.mk (s.data.map lowerChar)

/-- The memoization key of `check_duplicate_file`:
`f"{output_file}:{file_size}:{business_type.lower()}"`. -/
def dupCacheKey (output_file : String) (file_size : ℕ) (business_type : String) :
    String :=
  output_file ++ ":" ++ toString file_size ++ ":" ++ strLower business_type

/-- Result of one `check_duplicate_file` call: the verdict pair, the
updated consolidated cache, and whether the call went past the memo
layer into content probing. -/
structure DupCheckOutcome where
  verdict : Bool × Option ℤ
  cache : LRUCache DupVerdict
  probed : Bool
deriving DecidableEq

/-- `check_duplicate_file` (app.py): the existence/size guards and the
consolidated-cache memo layer, with the file-content probing abstracted
into its observable outcomes — `fingerprint` is what
`_check_content_fingerprint` would return for the current file content
(`none` for its undetermined/exception case) and `fallback` is the
verdict of the streaming or pandas layer that would otherwise run.
The `areas` argument is received but takes no part in the memo key. -/
def check_duplicate_file (cache : LRUCache DupVerdict)
    (business_type : String) (areas : List String) (output_file : String)
    (fileExists : Bool) (file_size : ℕ)
    (fingerprint : Option DupVerdict) (fallback : Bool × Option ℤ) :
    DupCheckOutcome :=
  if ¬ fileExists then ⟨(false, none), cache, false⟩
  else if file_size = 0 then ⟨(false, none), cache, false⟩
  else
    let key := dupCacheKey output_file file_size business_type
    match lruGet cache key with
    | (some v, cache2) => ⟨(v.is_duplicate, some v.count), cache2, false⟩
    | (none, cache2) =>
      match fingerprint with
      | some v => ⟨(v.is_duplicate, some v.count), lruPut cache2 key v, true⟩
      | none => ⟨fallback, cache2, true⟩

/-! ## Concrete states used to exercise the operations -/

/-- A service state with the default configuration (rate limit 2 per 60s,
concurrency cap 2, retention 900s, metrics window 180s), no jobs, and two
recent submission timestamps. -/
def svcTwoStarts : ServiceState :=
  { jobs := []
    job_starts := [0, 10]
    rate_limit := 2
    rate_limit_window := 60
    cleanup_after_seconds := 900
    metrics_window_seconds := 180
    max_concurrent_jobs := 2 }

/-- A freshly started job in status `running`. -/
def runningJob : JobState :=
  { job_id := "job-1"
    search_query := "coffee shops"
    total_results := 50
    output_file := "out.csv"
    append_mode := false
    fast_append := false
    status := "running"
    progress := 0
    result_count := 0
    error_message := none
    start_time := 0
    end_time := none
    throughput_per_minute := 0
    eta_seconds := none
    elapsed_seconds := 0
    last_update := some 0
    progress_samples := []
    recent_records := [] }

/-- A running job that has already reported 5 results. -/
def runningJobFive : JobState :=
  { runningJob with
    job_id := "job-2"
    result_count := 5
    progress := 10
    last_update := some 20
    progress_samples := [(20, 5)] }

/-- A running job awaiting its worker, with one sample recorded. -/
def runningJobSampled : JobState :=
  { runningJob with
    job_id := "job-3"
    result_count := 10
    progress := 20
    last_update := some 30
    progress_samples := [(30, 10)] }

/-- A progress payload that reports a smaller `current` than already
recorded. -/
def regressPayload : ProgressPayload :=
  { progress := some 30, current := some 3, error_message := none,
    status := none, timestamp := some 100 }

/-- A progress payload carrying a terminal status string. -/
def interruptPayload : ProgressPayload :=
  { progress := none, current := none, error_message := none,
    status := some "interrupted", timestamp := some 50 }

/-- The duplicate cache after one miss on `dentist`/`out.csv` whose
content fingerprint returned a positive verdict, queried with area set
`["adyar"]`. -/
def dupCacheAfterFirst : LRUCache DupVerdict :=
  (check_duplicate_file duplicateCacheInit "dentist" ["adyar"] "out.csv"
    true 4096 (some ⟨true, 120⟩) (false, none)).cache

/-! ## Helper lemmas -/

lemma dictLookup_append_pair {V : Type} (l : List (String × V)) (k : String) (v : V)
    (h : dictLookup l k = none) : dictLookup (l ++ [(k, v)]) k = some v := by
  induction l with
  | nil => simp [dictLookup]
  | cons kv t ih =>
    obtain ⟨k2, v2⟩ := kv
    by_cases hk : k2 = k
    · simp [dictLookup, hk] at h
    · simp only [dictLookup, hk, ite_false] at h
      simpa [List.cons_append, dictLookup, hk] using ih h

lemma dictLookup_dictSet {V : Type} (l : List (String × V)) (k : String) (v : V) :
    dictLookup (dictSet l k v) k = some v := by
  unfold dictSet
  by_cases h : (dictLookup l k).isSome
  · simp only [h, if_true]
    induction l with
    | nil => simp [dictLookup] at h
    | cons kv t ih =>
      obtain ⟨k2, v2⟩ := kv
      simp only [List.map_cons]
      by_cases hk : k2 = k
      · subst hk
        rw [show (if (k2, v2).1 = k2 then (k2, v) else (k2, v2)) = (k2, v) from if_pos rfl]
        simp [dictLookup]
      · rw [show (if (k2, v2).1 = k then (k, v) else (k2, v2)) = (k2, v2) from if_neg hk]
        simp only [dictLookup, hk, ite_false] at h ⊢
        exact ih h
  · simp only [h, if_false]
    have hnone : dictLookup l k = none := by
      cases hx : dictLookup l k with
      | none => rfl
      | some w => rw [hx] at h; simp at h
    exact dictLookup_append_pair l k v hnone

lemma dictLookup_tail_none {V : Type} (l : List (String × V)) (k : String)
    (h : dictLookup l k = none) : dictLookup l.tail k = none := by
  cases l with
  | nil => simpa using h
  | cons kv t =>
    obtain ⟨k2, v2⟩ := kv
    by_cases hk : k2 = k
    · simp [dictLookup, hk] at h
    · simpa [dictLookup, hk] using h

lemma pruneJobStarts_eq_filter (now window : ℚ) (l : List ℚ)
    (h : l.Pairwise (· ≤ ·)) :
    pruneJobStarts now window l = l.filter fun t => decide (now - t ≤ window) := by
  induction l with
  | nil => rfl
  | cons t ts ih =>
    rw [List.pairwise_cons] at h
    by_cases hc : window < now - t
    · have hnot : ¬ (now - t ≤ window) := not_le.mpr hc
      simp only [pruneJobStarts, if_pos hc, List.filter_cons]
      rw [ih h.2]
      simp [hnot]
    · have hle : now - t ≤ window := not_lt.mp hc
      have hts : List.filter (fun s => decide (now - s ≤ window)) ts = ts := by
        rw [List.filter_eq_self]
        intro s hs
        have h1 : t ≤ s := h.1 s hs
        simp only [decide_eq_true_eq]
        linarith
      have hdt : decide (now - t ≤ window) = true := decide_eq_true hle
      simp only [pruneJobStarts, if_neg hc, List.filter_cons, hdt, if_true]
      rw [hts]

lemma runningCount_cleanupFinishedJobs (now ca : ℚ) (jobs : List (String × JobState))
    (h : ∀ kv ∈ jobs, kv.2.status = "running" → kv.2.end_time = none) :
    runningCount (cleanupFinishedJobs now ca jobs) = runningCount jobs := by
  unfold runningCount cleanupFinishedJobs
  rw [List.filter_filter]
  apply congrArg List.length
  apply List.filter_congr
  intro kv hkv
  by_cases hr : kv.2.status = "running"
  · have he := h kv hkv hr
    simp [hr, he]
  · simp [hr]

lemma handleProgress_result_count (now window : ℚ) (job : JobState) (p : ProgressPayload) :
    (handleProgress now window job p).result_count = p.current.getD job.result_count := by
  unfold handleProgress
  cases p.error_message <;> cases p.status <;> dsimp only <;> split_ifs <;> rfl

lemma handleProgress_end_time (now window : ℚ) (job : JobState) (p : ProgressPayload) :
    (handleProgress now window job p).end_time = job.end_time := by
  unfold handleProgress
  cases p.error_message <;> cases p.status <;> dsimp only <;> split_ifs <;> rfl

lemma handleMetrics_end_time (now : ℚ) (job : JobState) (p : MetricsPayload) :
    (handleMetrics now job p).end_time = job.end_time := by
  unfold handleMetrics updateMetricsJob
  cases p.elapsed_seconds <;> rfl

lemma handleRecordBatch_result_count (job : JobState) (p : RecordBatchPayload) :
    (handleRecordBatch job p).result_count =
      if p.records.isEmpty then job.result_count
      else p.total_scraped.getD job.result_count := by
  unfold handleRecordBatch
  split_ifs with he
  · rfl
  · cases p.total_scraped <;> simp [he]

lemma handleRecordBatch_end_time (job : JobState) (p : RecordBatchPayload) :
    (handleRecordBatch job p).end_time = job.end_time := by
  unfold handleRecordBatch
  split_ifs with he
  · rfl
  · cases p.total_scraped <;> rfl

lemma finishJob_end_time (now : ℚ) (st : JobState) (r : ScraperRunResult) :
    (finishJob now st r).end_time = some now := by
  simp only [finishJob, updateMetricsJob]
  split_ifs <;> rfl

lemma finishJob_status (now : ℚ) (st : JobState) (r : ScraperRunResult) :
    (finishJob now st r).status =
      if st.status = "interrupted" ∨ st.status = "failed" then st.status
      else if r.success then "completed" else "failed" := by
  simp only [finishJob, updateMetricsJob]
  split_ifs <;> rfl

lemma finishJob_error_message (now : ℚ) (st : JobState) (r : ScraperRunResult)
    (h : r.success = false) (h2 : r.error.isSome) :
    (finishJob now st r).error_message = r.error := by
  simp only [finishJob, updateMetricsJob]
  split_ifs with h1 h2a h2b <;> first
    | rfl
    | (exfalso; simp [h, h2] at *)

lemma dictErase_length_of_isSome {V : Type} (k : String) (l : List (String × V))
    (h : (dictLookup l k).isSome) : (dictErase k l).length + 1 = l.length := by
  induction l with
  | nil => simp [dictLookup] at h
  | cons kv t ih =>
    obtain ⟨k2, v2⟩ := kv
    by_cases hk : k2 = k
    · simp [dictErase, hk]
    · simp only [dictLookup, hk, ite_false] at h
      simp only [dictErase, hk, ite_false, List.length_cons]
      have := ih h
      omega


/-! ## Claim theorems -/

/-- C10 (counterexample): the checkpoint fingerprint does not separate all
distinct (query, output target) pairs: the pair is serialized as
`f"{search_query}_{output_file}"` before hashing, so `("a_b", "c")` and
`("a", "b_c")` — two different pairs — serialize to the same string
`"a_b_c"` and therefore receive the same fingerprint, refuting the claim
that distinct pairs yield distinct fingerprints. -/
theorem cache_id_collision_for_distinct_pairs :
    generate_cache_id "a_b" "c" = generate_cache_id "a" "b_c" ∧
      ("a_b", "c") ≠ (("a", "b_c") : String × String) := by
  refine ⟨by rfl, by decide⟩

/-- C10 (amended claim): the fingerprint is a deterministic function of
(query, output target), so saving a checkpoint and re-submitting the
identical parameters finds exactly the stored record (when its output
file still exists); however, distinct pairs whose `query_output`
serializations coincide share one fingerprint and hence one record. -/
theorem cache_id_deterministic_lookup (store : List (String × ScrapingCache))
    (q o : String) (total scraped idx : ℤ) (ts : String)
    (outputExists : String → Bool) (h : outputExists o = true) :
    load_cache (save_cache store q o total scraped idx ts) q o outputExists =
      some ⟨q, o, total, scraped, idx, ts, generate_cache_id q o⟩ := by
  simp only [load_cache, save_cache]
  rw [dictLookup_dictSet]
  simp [h]

/-- C10 witness: a concrete save/load round trip. -/
theorem cache_id_deterministic_lookup_witness :
    load_cache (save_cache [] "coffee shops" "out.csv" 100 25 25 "2024-01-01")
        "coffee shops" "out.csv" (fun _ => true) =
      some ⟨"coffee shops", "out.csv", 100, 25, 25, "2024-01-01",
        generate_cache_id "coffee shops" "out.csv"⟩ :=
  cache_id_deterministic_lookup [] "coffee shops" "out.csv" 100 25 25
    "2024-01-01" (fun _ => true) rfl

/-- C3 (counterexample): with a loaded checkpoint recording
`scraped_count = 25` against an independently measured existing count of
10, and `ultra_fast_append = false` (the caller did not request append),
the decision of `scrape_places` is not to resume — but append mode is
still on, because the checkpoint's output file exists
(`is_append_mode = os.path.exists(output_path) or ultra_fast_append`).
This refutes the claim that on the discard path append is not forced
unless the caller already requested it. -/
theorem checkpoint_discard_still_appends :
    (reconcileCheckpoint true false
        (some ⟨"q", "out.csv", 100, 25, 25, "t", "id"⟩) 10).resuming = false ∧
    (reconcileCheckpoint true false
        (some ⟨"q", "out.csv", 100, 25, 25, "t", "id"⟩) 10).is_append_mode = true := by
  constructor <;> rfl

/-- C3 (amended claim): with a loaded checkpoint, if the independently
measured count is at least the checkpoint's `scraped_count`, scraping
resumes at `last_scraped_index + 1` with append mode forced; otherwise
the checkpoint is ignored and scraping starts fresh at index 0 without
resuming, with append mode on exactly when the output file exists or the
caller requested append (so on this path, where the checkpoint's output
file exists, append stays on even without a caller request). -/
theorem checkpoint_reconciliation_cases (outputExists ultra_fast : Bool)
    (c : ScrapingCache) (existing : ℤ) :
    (c.scraped_count ≤ existing →
      reconcileCheckpoint outputExists ultra_fast (some c) existing =
        ⟨c.last_scraped_index + 1, true, true⟩) ∧
    (existing < c.scraped_count →
      reconcileCheckpoint outputExists ultra_fast (some c) existing =
        ⟨0, outputExists || ultra_fast, false⟩) := by
  constructor
  · intro h
    simp [reconcileCheckpoint, h]
  · intro h
    simp [reconcileCheckpoint, not_le.mpr h]

/-- C3 witness: a checkpoint with `scraped_count = 25` and an existing
count of 25 resumes at index 26 with append forced. -/
theorem checkpoint_reconciliation_cases_witness :
    reconcileCheckpoint false false
        (some ⟨"q", "out.csv", 100, 25, 25, "t", "id"⟩) 25 = ⟨25 + 1, true, true⟩ :=
  (checkpoint_reconciliation_cases false false
    ⟨"q", "out.csv", 100, 25, 25, "t", "id"⟩ 25).1 (by norm_num)

/-- C4: `InProcessScraperRunner.run` calls `scrape_places` with keyword
arguments (`progress_callback` first among them) that `scrape_places`
does not accept, so — whatever the scraping body would have done — every
run raises `TypeError` inside the `try` block, is caught, and returns a
failure result carrying that `TypeError`; consequently the terminal
reconciliation of such a run can never record status `completed`. -/
theorem runner_call_always_fails_with_type_error (elapsed now : ℚ)
    (body : Except String Unit) (st : JobState) :
    (inProcessRun elapsed body).success = false ∧
    (inProcessRun elapsed body).error =
      some "TypeError: scrape_places() got an unexpected keyword argument progress_callback" ∧
    (finishJob now st (inProcessRun elapsed body)).status ≠ "completed" := by
  have hrun : inProcessRun elapsed body =
      ⟨false, elapsed,
        some "TypeError: scrape_places() got an unexpected keyword argument progress_callback"⟩ := by
    unfold inProcessRun runBodyOutcome
    rw [show unexpectedKeyword scrapePlacesParams runnerKeywordArgs =
        some "progress_callback" from by rfl]
    rfl
  refine ⟨by rw [hrun], by rw [hrun], ?_⟩
  rw [hrun, finishJob_status]
  split_ifs with h1 h2
  · rcases h1 with h | h <;> rw [h] <;> decide
  · exact h2.elim
  · decide

/-- C5 (counterexample): `JobService._run_job` has no `try` around
`runner.run`, so a runner whose `run` method raises propagates the
exception out of the worker: the registry records nothing — the job is
left in status `running` with `end_time` unset, refuting the claim that
for every runner a raised exception is caught and converted into a
failed terminal result. -/
theorem runner_exception_propagates_uncaught :
    runJobStep 10 runningJob (Except.error "RuntimeError: boom") =
      Except.error "RuntimeError: boom" ∧
    runningJob.status = "running" ∧ runningJob.end_time = none :=
  ⟨rfl, rfl, rfl⟩

/-- C5 (amended claim): exceptions raised by the dispatched worker inside
the in-process runner's `try` block are caught there
(`except Exception`), converted to a failed `ScraperRunResult`, and the
registry's terminal reconciliation then records a terminal `failed`
status with `end_time` stamped and the error surfaced — nothing is
re-raised to the submitter; only an exception escaping a runner's `run`
method itself bypasses this path. -/
theorem worker_exception_caught_inside_runner (now elapsed : ℚ) (e : String)
    (st : JobState) (h : st.status = "running") :
    runJobStep now st (Except.ok (catchToResult elapsed (Except.error e))) =
      Except.ok (finishJob now st ⟨false, elapsed, some e⟩) ∧
    (finishJob now st ⟨false, elapsed, some e⟩).status = "failed" ∧
    (finishJob now st ⟨false, elapsed, some e⟩).end_time = some now ∧
    (finishJob now st ⟨false, elapsed, some e⟩).error_message = some e := by
  refine ⟨rfl, ?_, finishJob_end_time now st _, ?_⟩
  · rw [finishJob_status]
    simp [h]
  · exact finishJob_error_message now st ⟨false, elapsed, some e⟩ rfl rfl

/-- C5 witness: a concrete worker exception reconciled to a failed
terminal state. -/
theorem worker_exception_caught_inside_runner_witness :
    runJobStep 10 runningJob (Except.ok (catchToResult 3 (Except.error "boom"))) =
      Except.ok (finishJob 10 runningJob ⟨false, 3, some "boom"⟩) ∧
    (finishJob 10 runningJob ⟨false, 3, some "boom"⟩).status = "failed" ∧
    (finishJob 10 runningJob ⟨false, 3, some "boom"⟩).end_time = some 10 ∧
    (finishJob 10 runningJob ⟨false, 3, some "boom"⟩).error_message = some "boom" :=
  worker_exception_caught_inside_runner 10 3 "boom" runningJob rfl

/-- C6 (counterexample): `_handle_progress` copies the payload's
`current` value into `result_count` unconditionally, so a progress
callback carrying `current = 3` drops a running job's `result_count`
from 5 to 3 — `result_count` is not monotone regardless of the payload
values, refuting the claim. -/
theorem result_count_decreases_on_regressing_payload :
    runningJobFive.status = "running" ∧ runningJobFive.result_count = 5 ∧
    (handleProgress 100 180 runningJobFive regressPayload).status = "running" ∧
    (handleProgress 100 180 runningJobFive regressPayload).result_count = 3 := by
  refine ⟨rfl, rfl, ?_, ?_⟩ <;> rfl

/-- C6 (amended claim): `result_count` tracks the callback payloads —
after a progress callback it equals the payload's `current` (unchanged
when absent), and after a record-batch callback it equals the
`total_scraped` hint (unchanged when absent); it is therefore
non-decreasing across callbacks exactly when the supplied
`current`/`total_scraped` values never fall below the recorded count. -/
theorem result_count_monotone_for_monotone_payloads :
    (∀ (now window : ℚ) (job : JobState) (p : ProgressPayload),
        (∀ c, p.current = some c → job.result_count ≤ c) →
        job.result_count ≤ (handleProgress now window job p).result_count) ∧
    (∀ (job : JobState) (p : RecordBatchPayload),
        (∀ n, p.total_scraped = some n → job.result_count ≤ n) →
        job.result_count ≤ (handleRecordBatch job p).result_count) := by
  constructor
  · intro now window job p h
    rw [handleProgress_result_count]
    cases hc : p.current with
    | none => simp
    | some c => simpa using h c hc
  · intro job p h
    rw [handleRecordBatch_result_count]
    split_ifs
    · exact le_refl _
    · cases ht : p.total_scraped with
      | none => simp
      | some n => simpa using h n ht

/-- C6 witness: a progress payload whose `current` (9) is at least the
recorded count (5) does not decrease `result_count`. -/
theorem result_count_monotone_for_monotone_payloads_witness :
    runningJobFive.result_count ≤
      (handleProgress 100 180 runningJobFive
        ⟨some 40, some 9, none, none, some 100⟩).result_count :=
  (result_count_monotone_for_monotone_payloads).1 100 180 runningJobFive
    ⟨some 40, some 9, none, none, some 100⟩
    (by
      intro c hc
      simp only [Option.some.injEq] at hc
      subst hc
      decide)

/-- C7 (counterexample): a progress callback whose payload carries
`status = "interrupted"` moves a running job into a terminal status while
`end_time` stays unset (callbacks never stamp `end_time`), refuting the
claimed equivalence between a terminal status and a set `end_time`. -/
theorem terminal_status_without_end_time :
    (handleProgress 50 180 runningJobSampled interruptPayload).status = "interrupted" ∧
    (handleProgress 50 180 runningJobSampled interruptPayload).end_time = none := by
  constructor <;> rfl

/-- C7 (amended claim): `end_time` is stamped exactly by the terminal
reconciliation — `_run_job` always sets `end_time` and leaves the status
terminal (`completed`, `failed` or `interrupted`), while the
progress/metrics/record callbacks never modify `end_time`; hence after
worker completion a set `end_time` implies a terminal status, but a
callback can install a terminal status string before `end_time` is
set. -/
theorem end_time_stamped_only_by_terminal_reconciliation :
    (∀ (now : ℚ) (st : JobState) (r : ScraperRunResult),
        (finishJob now st r).end_time = some now ∧
          ((finishJob now st r).status = "completed" ∨
            (finishJob now st r).status = "failed" ∨
            (finishJob now st r).status = "interrupted")) ∧
    (∀ (now window : ℚ) (job : JobState) (p : ProgressPayload),
        (handleProgress now window job p).end_time = job.end_time) ∧
    (∀ (now : ℚ) (job : JobState) (p : MetricsPayload),
        (handleMetrics now job p).end_time = job.end_time) ∧
    (∀ (job : JobState) (p : RecordBatchPayload),
        (handleRecordBatch job p).end_time = job.end_time) := by
  refine ⟨?_, handleProgress_end_time, handleMetrics_end_time, handleRecordBatch_end_time⟩
  intro now st r
  refine ⟨finishJob_end_time now st r, ?_⟩
  rw [finishJob_status]
  split_ifs with h1 h2
  · rcases h1 with h | h
    · right; right; exact h
    · right; left; exact h
  · left; rfl
  · right; left; rfl

/-- C2: the throughput/ETA computation is a pure function of the sample
buffer: with fewer than 2 samples it reports zero throughput and no ETA;
with oldest sample `(t0, c0)` and newest `(t1, c1)`, if `t1 - t0 ≤ 0` or
`c1 - c0 ≤ 0` it reports zero throughput and no ETA, and otherwise the
throughput per minute is exactly `((c1 - c0) / (t1 - t0)) * 60` and the
ETA in seconds is exactly `max (target - current) 0` divided by the
per-second rate. -/
theorem compute_metrics_formula :
    (∀ (samples : List (ℚ × ℤ)) (total current : ℤ), samples.length < 2 →
        computeMetrics samples total current = (0, none)) ∧
    (∀ (samples : List (ℚ × ℤ)) (t0 : ℚ) (c0 : ℤ) (t1 : ℚ) (c1 : ℤ) (total current : ℤ),
        2 ≤ samples.length →
        samples.head? = some (t0, c0) →
        samples.getLast? = some (t1, c1) →
        ((t1 - t0 ≤ 0 ∨ c1 - c0 ≤ 0 →
            computeMetrics samples total current = (0, none)) ∧
          (0 < t1 - t0 → 0 < c1 - c0 →
            computeMetrics samples total current =
              (((c1 - c0 : ℤ) : ℚ) / (t1 - t0) * 60,
                some (((max (total - current) 0 : ℤ) : ℚ) /
                  (((c1 - c0 : ℤ) : ℚ) / (t1 - t0))))))) := by
  constructor
  · intro samples total current h
    unfold computeMetrics
    rw [if_pos h]
  · intro samples t0 c0 t1 c1 total current h2 hh hl
    have hnlt : ¬ samples.length < 2 := not_lt.mpr h2
    constructor
    · intro hdeg
      unfold computeMetrics
      rw [if_neg hnlt, hh, hl]
      dsimp only
      rw [if_pos hdeg]
    · intro ht hc
      have hdeg : ¬ ((t1 - t0 : ℚ) ≤ 0 ∨ (c1 - c0 : ℤ) ≤ 0) := by
        push_neg
        exact ⟨ht, hc⟩
      have htps : 0 < ((c1 - c0 : ℤ) : ℚ) / (t1 - t0) := by
        apply div_pos _ ht
        exact_mod_cast hc
      unfold computeMetrics
      rw [if_neg hnlt, hh, hl]
      dsimp only
      rw [if_neg hdeg, if_pos htps]

/-- C2 witness: the spec's own example — samples `(0, 10)` and
`(60, 100)` with target 100 and current count 100. -/
theorem compute_metrics_formula_witness :
    computeMetrics [(0, 10), (60, 100)] 100 100 =
      (((100 - 10 : ℤ) : ℚ) / (60 - 0) * 60,
        some (((max ((100 : ℤ) - 100) 0 : ℤ) : ℚ) /
          (((100 - 10 : ℤ) : ℚ) / (60 - 0)))) :=
  ((compute_metrics_formula).2 [(0, 10), (60, 100)] 0 10 60 100 100 100
    (by norm_num) rfl rfl).2 (by norm_num) (by norm_num)

lemma lruApply_bound {V : Type} (c : LRUCache V) (op : LruOp V)
    (h1 : 1 ≤ c.max_size) (h2 : c.cache.length ≤ c.max_size) :
    (lruApply c op).cache.length ≤ c.max_size ∧
      (lruApply c op).max_size = c.max_size := by
  cases op with
  | get k =>
    cases hx : dictLookup c.cache k with
    | none =>
      constructor
      · simpa [lruApply, lruGet, hx] using h2
      · simp [lruApply, lruGet, hx]
    | some v =>
      constructor
      · have hlen := dictErase_length_of_isSome k c.cache (by rw [hx]; rfl)
        simp only [lruApply, lruGet, hx, List.length_append, List.length_singleton]
        omega
      · simp [lruApply, lruGet, hx]
  | put k v =>
    by_cases hp : (dictLookup c.cache k).isSome
    · constructor
      · have hlen := dictErase_length_of_isSome k c.cache hp
        simp only [lruApply, lruPut, hp, if_true, List.length_append,
          List.length_singleton]
        omega
      · simp [lruApply, lruPut, hp]
    · by_cases hf : c.max_size ≤ c.cache.length
      · constructor
        · simp only [lruApply, lruPut, hp, Bool.false_eq_true, if_false, hf,
            if_true, List.length_append, List.length_singleton, List.length_tail]
          omega
        · simp [lruApply, lruPut, hp, hf]
      · constructor
        · simp only [lruApply, lruPut, hp, Bool.false_eq_true, if_false, hf,
            List.length_append, List.length_singleton]
          omega
        · simp [lruApply, lruPut, hp, hf]

lemma dictLookup_lruPut_self {V : Type} (c : LRUCache V) (k : String) (v : V)
    (h : dictLookup c.cache k = none) :
    dictLookup (lruPut c k v).cache k = some v := by
  have hc : (lruPut c k v).cache =
      (if c.max_size ≤ c.cache.length then c.cache.tail else c.cache) ++ [(k, v)] := by
    unfold lruPut
    rw [h]
    simp only [Option.isSome_none, Bool.false_eq_true, if_false]
    split_ifs <;> rfl
  rw [hc]
  split_ifs with hf
  · exact dictLookup_append_pair _ k v (dictLookup_tail_none _ k h)
  · exact dictLookup_append_pair _ k v h

/-- C1: `start_job` raises `RateLimitExceeded` if and only if the number
of prior submission timestamps inside the trailing rate-limit window has
reached the rate limit, or the number of jobs currently in status
`running` has reached the concurrency cap — expired timestamps are
dropped before the check, so after the window elapses (and below the
cap) a submission succeeds again.  The hypotheses state the invariants
of reachable service states: submission timestamps are recorded in
chronological order, and running jobs carry no `end_time`. -/
theorem start_job_raises_iff_admission_denied (now : ℚ) (svc : ServiceState)
    (job_id search_query : String) (total_results : ℤ) (output_file : String)
    (append_mode fast_append : Bool)
    (hsorted : svc.job_starts.Pairwise (· ≤ ·))
    (hrun : ∀ kv ∈ svc.jobs, kv.2.status = "running" → kv.2.end_time = none) :
    raised (startJob now svc job_id search_query total_results output_file
        append_mode fast_append) = true ↔
      svc.rate_limit ≤
          (svc.job_starts.filter fun t => decide (now - t ≤ svc.rate_limit_window)).length ∨
        svc.max_concurrent_jobs ≤ runningCount svc.jobs := by
  simp only [startJob]
  rw [pruneJobStarts_eq_filter now svc.rate_limit_window svc.job_starts hsorted,
    runningCount_cleanupFinishedJobs now svc.cleanup_after_seconds svc.jobs hrun]
  by_cases h1 : svc.rate_limit ≤
      (svc.job_starts.filter fun t => decide (now - t ≤ svc.rate_limit_window)).length
  · rw [if_pos h1]
    exact iff_of_true rfl (Or.inl h1)
  · rw [if_neg h1]
    by_cases h2 : svc.max_concurrent_jobs ≤ runningCount svc.jobs
    · rw [if_pos h2]
      exact iff_of_true rfl (Or.inr h2)
    · rw [if_neg h2]
      exact iff_of_false (by simp [raised]) (not_or.mpr ⟨h1, h2⟩)

/-- C1 witness: with the default limit of 2 per 60 seconds and two
submissions (at times 0 and 10) still inside the trailing window at time
30, the third `start_job` call raises. -/
theorem start_job_raises_iff_admission_denied_witness :
    raised (startJob 30 svcTwoStarts "job-3" "coffee" 5 "out.csv" false false) = true :=
  (start_job_raises_iff_admission_denied 30 svcTwoStarts "job-3" "coffee" 5
      "out.csv" false false
      (by
        show ([0, 10] : List ℚ).Pairwise (· ≤ ·)
        norm_num [List.pairwise_cons])
      (by
        intro kv hkv
        simp [svcTwoStarts] at hkv)).mpr
    (Or.inl (by norm_num [svcTwoStarts, List.filter]))

/-- C9: the `LRUCache` maintains its invariants under every sequence of
`get`/`put` operations — the entry count never exceeds the configured
capacity (200 for the consolidated duplicate cache) and the capacity is
never mutated; a `put` of a new key at capacity drops the entry at the
least-recently-used front; and a `get` hit moves the entry to the
most-recently-used end. -/
theorem lru_cache_invariants (V : Type) :
    (∀ (c : LRUCache V) (ops : List (LruOp V)), 1 ≤ c.max_size →
        c.cache.length ≤ c.max_size →
        (lruRun c ops).cache.length ≤ c.max_size ∧
          (lruRun c ops).max_size = c.max_size) ∧
    (∀ (c : LRUCache V) (k : String) (v : V),
        dictLookup c.cache k = none → c.cache.length = c.max_size →
        lruPut c k v = { c with cache := c.cache.tail ++ [(k, v)] }) ∧
    (∀ (c : LRUCache V) (k : String) (v : V),
        dictLookup c.cache k = some v →
        lruGet c k = (some v, { c with cache := dictErase k c.cache ++ [(k, v)] })) := by
  refine ⟨?_, ?_, ?_⟩
  · intro c ops
    induction ops generalizing c with
    | nil =>
      intro h1 h2
      exact ⟨h2, rfl⟩
    | cons op rest ih =>
      intro h1 h2
      have hstep := lruApply_bound c op h1 h2
      have hrest := ih (lruApply c op) (by rw [hstep.2]; exact h1)
        (by rw [hstep.2]; exact hstep.1)
      constructor
      · calc (lruRun c (op :: rest)).cache.length
            = (lruRun (lruApply c op) rest).cache.length := rfl
          _ ≤ (lruApply c op).max_size := hrest.1
          _ = c.max_size := hstep.2
      · calc (lruRun c (op :: rest)).max_size
            = (lruRun (lruApply c op) rest).max_size := rfl
          _ = (lruApply c op).max_size := hrest.2
          _ = c.max_size := hstep.2
  · intro c k v hmiss hfull
    unfold lruPut
    rw [hmiss]
    simp only [Option.isSome_none, Bool.false_eq_true, if_false]
    rw [if_pos (le_of_eq hfull.symm)]
  · intro c k v hhit
    unfold lruGet
    rw [hhit]

/-- C9 witness: a concrete operation sequence against the consolidated
duplicate cache (capacity 200) keeps the entry count within capacity. -/
theorem lru_cache_invariants_witness :
    (lruRun duplicateCacheInit
        [LruOp.put "a" ⟨true, 3⟩, LruOp.put "b" ⟨false, 0⟩,
          LruOp.get "a", LruOp.put "a" ⟨true, 9⟩]).cache.length ≤
        duplicateCacheInit.max_size ∧
      (lruRun duplicateCacheInit
          [LruOp.put "a" ⟨true, 3⟩, LruOp.put "b" ⟨false, 0⟩,
            LruOp.get "a", LruOp.put "a" ⟨true, 9⟩]).max_size =
        duplicateCacheInit.max_size :=
  (lru_cache_invariants DupVerdict).1 duplicateCacheInit
    [LruOp.put "a" ⟨true, 3⟩, LruOp.put "b" ⟨false, 0⟩,
      LruOp.get "a", LruOp.put "a" ⟨true, 9⟩]
    (by decide) (by decide)

/-- C8 (counterexample): the consolidated duplicate cache is keyed only
by `f"{output_file}:{file_size}:{business_type.lower()}"` — after one
probed call with area set `["adyar"]`, the identical call with the
different area set `["velachery"]` returns the first call's cached
verdict straight from the memo layer (no probing), refuting the claim
that calls differing in the area set do not reuse each other's cached
verdict. -/
theorem duplicate_verdict_shared_across_area_sets :
    (check_duplicate_file dupCacheAfterFirst "dentist" ["velachery"] "out.csv"
        true 4096 none (false, none)).verdict = (true, some 120) ∧
    (check_duplicate_file dupCacheAfterFirst "dentist" ["velachery"] "out.csv"
        true 4096 none (false, none)).probed = false ∧
    (["adyar"] : List String) ≠ ["velachery"] := by
  refine ⟨by decide, by decide, by decide⟩

/-- C8 (amended claim): duplicate-check memoization is keyed by (output
target, file size, lowercased business type) only — the area set takes
no part in the key, so the verdict is the same for any two area sets;
and once a probed call has cached its verdict, any repeated call with
the same target, size and business type (and an unchanged file) returns
that cached verdict from the memo layer without probing the content
again. -/
theorem duplicate_memo_key_ignores_areas :
    (∀ (cache : LRUCache DupVerdict) (bt : String) (a1 a2 : List String)
        (f : String) (ex : Bool) (s : ℕ) (fp : Option DupVerdict)
        (fb : Bool × Option ℤ),
        check_duplicate_file cache bt a1 f ex s fp fb =
          check_duplicate_file cache bt a2 f ex s fp fb) ∧
    (∀ (cache : LRUCache DupVerdict) (bt : String) (a1 a2 : List String)
        (f : String) (s : ℕ) (v : DupVerdict) (fb : Bool × Option ℤ)
        (fp2 : Option DupVerdict) (fb2 : Bool × Option ℤ),
        s ≠ 0 →
        dictLookup cache.cache (dupCacheKey f s bt) = none →
        (check_duplicate_file
            (check_duplicate_file cache bt a1 f true s (some v) fb).cache
            bt a2 f true s fp2 fb2).verdict = (v.is_duplicate, some v.count) ∧
          (check_duplicate_file
              (check_duplicate_file cache bt a1 f true s (some v) fb).cache
              bt a2 f true s fp2 fb2).probed = false) := by
  constructor
  · intro cache bt a1 a2 f ex s fp fb
    rfl
  · intro cache bt a1 a2 f s v fb fp2 fb2 hs hmiss
    have hfirst : (check_duplicate_file cache bt a1 f true s (some v) fb).cache =
        lruPut cache (dupCacheKey f s bt) v := by
      simp only [check_duplicate_file, lruGet]
      rw [if_neg (by simp), if_neg hs, hmiss]
    rw [hfirst]
    have hhit : dictLookup (lruPut cache (dupCacheKey f s bt) v).cache
        (dupCacheKey f s bt) = some v :=
      dictLookup_lruPut_self cache (dupCacheKey f s bt) v hmiss
    constructor <;>
      (simp only [check_duplicate_file, lruGet]
       rw [if_neg (by simp), if_neg hs, hhit])

/-- C8 witness: the concrete repeat call against an unchanged file. -/
theorem duplicate_memo_key_ignores_areas_witness :
    (check_duplicate_file
        (check_duplicate_file duplicateCacheInit "dentist" ["adyar"] "out.csv"
          true 4096 (some ⟨true, 120⟩) (false, none)).cache
        "dentist" ["velachery"] "out.csv" true 4096 none (false, none)).verdict =
      (true, some 120) ∧
    (check_duplicate_file
        (check_duplicate_file duplicateCacheInit "dentist" ["adyar"] "out.csv"
          true 4096 (some ⟨true, 120⟩) (false, none)).cache
        "dentist" ["velachery"] "out.csv" true 4096 none (false, none)).probed = false :=
  (duplicate_memo_key_ignores_areas).2 duplicateCacheInit "dentist" ["adyar"]
    ["velachery"] "out.csv" 4096 ⟨true, 120⟩ (false, none) none (false, none)
    (by decide) (by decide)
